import Mathlib

/-!
Shallow embedding of the go-ws-transport stream adapter (package websocket).

Two backends of the same net.Conn contract are embedded:
  * the native backend (file conn.go, build tag !js), wrapping a
    gorilla/websocket connection: `Conn`, with `Conn.Read`, `Conn.Write`,
    `Conn.Close`, `Conn.SetDeadline` and friends;
  * the cooperative browser backend (file conn_browser.go, build tag
    js,wasm), wrapping a JavaScript WebSocket object: `BConn`, with
    `BConn.Read`, `BConn.Close` and the no-op deadline setters.

Go errors are modelled by `Option GoError` (none = nil). Side effects on the
underlying transport (frames sent, control frames written, underlying Close
invocations, handler releases) are recorded as counters and lists in the
state so that at-most-once properties are statable. The underlying gorilla
connection is modelled as a queue of inbound events plus error oracles for
its fallible primitives; the JavaScript WebSocket is modelled by its
readyState plus a queue of pending events delivered while a Read waits.
Goroutine interleavings are modelled sequentially: an event handler runs to
completion between the steps it separates.
-/

/-- Go error values as the adapter observes them. `eof` is io.EOF;
`closeError code text` is gorilla's *ws.CloseError; `errConnectionClosed` is
the browser backend's errors.New("connection is closed"); `jsError typ
reason` is the (always non-nil) value fmt.Errorf("JavaScript error: (%s) %s",
typ, reason); `netError` stands for any other transport error; `multi` is the
non-nil combination multierr.Combine returns for two non-nil errors. -/
inductive GoError where
  | eof
  | closeError (code : Nat) (text : String)
  | errConnectionClosed
  | jsError (typ : String) (reason : String)
  | netError (msg : String)
  | multi (e1 e2 : GoError)
deriving Repr, DecidableEq

/-! ## Native backend (conn.go, gorilla/websocket) -/

/-- One in-progress inbound frame, as the io.Reader gorilla's NextReader
hands out: the bytes still to be delivered, plus whether this reader reports
io.EOF together with the final chunk (an io.Reader may do either; gorilla's
message readers report EOF on the call after the last byte, which is
`earlyEOF = false`). -/
structure Reader where
  data : List Nat
  earlyEOF : Bool
deriving Repr, DecidableEq

/-- One call of the frame reader with a buffer of length `bufLen`:
an exhausted reader returns (0, io.EOF); otherwise it copies
min(bufLen, remaining) bytes and reports io.EOF alongside them only when it
is an early-EOF reader that just delivered its last byte. A zero-length
buffer against a non-exhausted reader yields (0, nil), as io.Reader allows
and gorilla's reader does. -/
def Reader.read (r : Reader) (bufLen : Nat) : (Nat × Option GoError) × Reader :=
  if r.data.isEmpty then ((0, some GoError.eof), r)
  else
    let n := min bufLen r.data.length
    let rest := r.data.drop n
    let err := if rest.isEmpty ∧ r.earlyEOF then some GoError.eof else none
    ((n, err), { r with data := rest })

/-- One outcome of gorilla's NextReader, queued on the underlying
connection: a data frame with its reader, a close control frame delivered as
a message (the defensive `t == ws.CloseMessage` branch), or an error. An
error or close outcome is terminal: NextReader keeps returning it, so the
event is not consumed from the queue. -/
inductive WSMessage where
  | data (r : Reader)
  | closeMsg
  | fetchErr (e : GoError)
deriving Repr, DecidableEq

/-- State of the wrapped gorilla connection: the queue of NextReader
outcomes, the frames sent so far (message type and payload), invocation
counters for WriteControl and the underlying Close, error oracles for each
fallible primitive, and the deadlines last applied. -/
structure WSConn where
  incoming : List WSMessage
  sent : List (Nat × List Nat)
  writeControlCalls : Nat
  closeCalls : Nat
  writeErr : Option GoError
  writeControlErr : Option GoError
  closeErr : Option GoError
  readDeadline : Option Int
  writeDeadline : Option Int
  readDeadlineErr : Option GoError
  writeDeadlineErr : Option GoError
deriving Repr, DecidableEq

/-- The native adapter Conn: the wrapped gorilla connection, the default
message type, the cached current-frame reader, and whether closeOnce has
fired. -/
structure Conn where
  ws : WSConn
  defaultMessageType : Nat
  reader : Option Reader
  closed : Bool
deriving Repr, DecidableEq

/-- Gorilla's ws.BinaryMessage constant. -/
def binaryMessage : Nat := 2

/-- NewConn of conn.go: wraps a gorilla connection with BinaryMessage as the
default message type, no cached reader, closeOnce not yet fired. -/
def NewConn (w : WSConn) : Conn :=
  { ws := w, defaultMessageType := binaryMessage, reader := none, closed := false }

/-- The error translation inside prepNextReader: a *ws.CloseError whose code
is 1000 or 1005 becomes io.EOF; every other error is returned as it is. -/
def translateFetchErr (e : GoError) : GoError :=
  match e with
  | GoError.closeError code text =>
      if code = 1000 ∨ code = 1005 then GoError.eof
      else GoError.closeError code text
  | e' => e'

/-- prepNextReader of conn.go: calls NextReader on the wrapped connection.
A fetch error is translated by `translateFetchErr`; a close control frame
becomes io.EOF; a data frame installs its reader as the frame cursor and
consumes the queued event. Terminal outcomes stay at the head of the queue
(NextReader would keep returning them). `none` models NextReader blocking on
an empty queue. -/
def Conn.prepNextReader (c : Conn) : Option (Option GoError × Conn) :=
  match c.ws.incoming with
  | [] => none
  | WSMessage.fetchErr e :: _ => some (some (translateFetchErr e), c)
  | WSMessage.closeMsg :: _ => some (some GoError.eof, c)
  | WSMessage.data r :: rest =>
      some (none, { c with reader := some r, ws := { c.ws with incoming := rest } })

/-- The for-loop of Conn.Read in conn.go, with the current reader and the
incoming queue threaded explicitly (the loop body calls prepNextReader; its
cases are inlined here so the recursion is structural on the queue). On
io.EOF from the reader the cursor is cleared; bytes already copied are
returned at once with a nil error; otherwise the next frame is fetched
within the same call, looping on data frames. Any other reader outcome is
returned as it is with the advanced reader kept as the cursor. `none`
models the read blocking. -/
def readLoop (bufLen : Nat) (r : Reader) (inc : List WSMessage) :
    Option ((Nat × Option GoError) × Option Reader × List WSMessage) :=
    let step := Reader.read r bufLen
    if step.1.2 = some GoError.eof then
      if 0 < step.1.1 then some ((step.1.1, none), none, inc)
      else
        match inc with
        | [] => none
        | WSMessage.fetchErr e :: _ =>
            some ((0, some (translateFetchErr e)), none, inc)
        | WSMessage.closeMsg :: _ =>
            some ((0, some GoError.eof), none, inc)
        | WSMessage.data r2 :: rest => readLoop bufLen r2 rest
    else some ((step.1.1, step.1.2), some step.2, inc)

/-- Conn.Read of conn.go: when no frame cursor is cached, prepNextReader is
called first, an error from it being returned with a zero count; then the
read loop runs on the current reader. `none` models the call blocking. -/
def Conn.Read (c : Conn) (bufLen : Nat) : Option ((Nat × Option GoError) × Conn) :=
  match c.reader with
  | some r =>
    match readLoop bufLen r c.ws.incoming with
    | none => none
    | some (out, r', inc') =>
        some (out, { c with reader := r', ws := { c.ws with incoming := inc' } })
  | none =>
    match c.prepNextReader with
    | none => none
    | some (some e, c1) => some ((0, some e), c1)
    | some (none, c1) =>
      match c1.reader with
      | none => none
      | some r =>
        match readLoop bufLen r c1.ws.incoming with
        | none => none
        | some (out, r', inc') =>
            some (out, { c1 with reader := r', ws := { c1.ws with incoming := inc' } })

/-- Conn.Write of conn.go: WriteMessage(DefaultMessageType, b) sends the
whole buffer as one frame; on error nothing is recorded as sent and (0, err)
is returned, otherwise (len b, nil). -/
def Conn.Write (c : Conn) (b : List Nat) : (Nat × Option GoError) × Conn :=
  match c.ws.writeErr with
  | some e => ((0, some e), c)
  | none =>
      ((b.length, none),
       { c with ws := { c.ws with sent := c.ws.sent ++ [(c.defaultMessageType, b)] } })

/-- multierr.Combine on two errors: nil when both are nil, the one non-nil
error otherwise, and a combined non-nil error when both are non-nil. -/
def multierrCombine : Option GoError → Option GoError → Option GoError
  | none, none => none
  | some e1, none => some e1
  | none, some e2 => some e2
  | some e1, some e2 => some (GoError.multi e1 e2)

/-- Conn.Close of conn.go: closeOnce.Do sends a close control frame (with
the GracefulCloseTimeout grace period, a real-time bound not modelled) and
closes the underlying connection, combining the two errors; when closeOnce
has already fired, nothing runs and the zero-value nil error is returned. -/
def Conn.Close (c : Conn) : Option GoError × Conn :=
  if c.closed then (none, c)
  else
    (multierrCombine c.ws.writeControlErr c.ws.closeErr,
     { c with closed := true,
              ws := { c.ws with writeControlCalls := c.ws.writeControlCalls + 1,
                                closeCalls := c.ws.closeCalls + 1 } })

/-- Conn.SetReadDeadline of conn.go: delegates to the wrapped connection,
whose outcome the oracle `readDeadlineErr` prescribes; on success the read
deadline becomes t. -/
def Conn.SetReadDeadline (c : Conn) (t : Int) : Option GoError × Conn :=
  match c.ws.readDeadlineErr with
  | some e => (some e, c)
  | none => (none, { c with ws := { c.ws with readDeadline := some t } })

/-- Conn.SetWriteDeadline of conn.go: as SetReadDeadline, under the write
mutex, for the write deadline. -/
def Conn.SetWriteDeadline (c : Conn) (t : Int) : Option GoError × Conn :=
  match c.ws.writeDeadlineErr with
  | some e => (some e, c)
  | none => (none, { c with ws := { c.ws with writeDeadline := some t } })

/-- Conn.SetDeadline of conn.go: SetReadDeadline first, returning its error
at once when it fails, then SetWriteDeadline with the same instant. -/
def Conn.SetDeadline (c : Conn) (t : Int) : Option GoError × Conn :=
  match c.SetReadDeadline t with
  | (some e, c1) => (some e, c1)
  | (none, c1) => c1.SetWriteDeadline t

/-! ## Cooperative browser backend (conn_browser.go, js/wasm) -/

/-- The WebSocket readyState constants of conn_browser.go. -/
def webSocketStateConnecting : Nat := 0

/-- readyState OPEN. -/
def webSocketStateOpen : Nat := 1

/-- readyState CLOSING. -/
def webSocketStateClosing : Nat := 2

/-- readyState CLOSED. -/
def webSocketStateClosed : Nat := 3

/-- A JavaScript close or error event as errorEventToError inspects it:
the type property when present (with the js.Value type string as the
fallback val.Type().String()), the reason property when present, and the
numeric code property when present. -/
structure JSEvent where
  typ : Option String
  typeFallback : String
  reason : Option String
  code : Option Int
deriving Repr, DecidableEq

/-- The code branch of errorEventToError: an absent code leaves the reason
empty, code 1006 has its fixed text, and any other code is rendered as
"unexpected code: %d". -/
def closeCodeText : Option Int → String
  | none => ""
  | some code =>
      if code = 1006 then "code 1006: connection unexpectedly closed"
      else "unexpected code: " ++ toString code

/-- errorEventToError of conn_browser.go: picks the event type (or the value
type as fallback), prefers a non-empty reason property, otherwise derives
the reason from the code property, and wraps both in a fmt.Errorf value —
which is never a nil error. -/
def errorEventToError (ev : JSEvent) : GoError :=
  let typ :=
    match ev.typ with
    | some t => t
    | none => ev.typeFallback
  let reason :=
    match ev.reason with
    | some s => if s = "" then closeCodeText ev.code else s
    | none => closeCodeText ev.code
  GoError.jsError typ reason

/-- An event the JavaScript runtime delivers to the registered handlers
while a Read waits: a message event carrying a payload, or a close event.
The error event is not modelled separately: its handler only calls Close. -/
inductive BEvent where
  | message (data : List Nat)
  | closeEvt (ev : JSEvent)
deriving Repr, DecidableEq

/-- The browser adapter Conn: the readyState of the wrapped WebSocket, the
inbound byte buffer currData, the latched first error, whether the one-shot
close signal has fired, how many times the signal channel was actually
closed (at most once by construction, recorded to state the one-shot
property), invocation counters for the underlying close() call and for
releaseHandlers, and the queue of pending events. -/
structure BConn where
  readyState : Nat
  currData : List Nat
  firstErr : Option GoError
  closeSignaled : Bool
  closeSignalCloses : Nat
  underlyingCloseCalls : Nat
  releaseHandlersCalls : Nat
  pending : List BEvent
deriving Repr, DecidableEq

/-- NewConn of conn_browser.go: wraps an open WebSocket with an empty
buffer, no latched error and the close signal not yet fired. -/
def NewBrowserConn (pending : List BEvent) : BConn :=
  { readyState := webSocketStateOpen, currData := [], firstErr := none,
    closeSignaled := false, closeSignalCloses := 0, underlyingCloseCalls := 0,
    releaseHandlersCalls := 0, pending := pending }

/-- signalClose of conn_browser.go: closeOnce.Do(close(closeSignal)) — the
channel is closed at most once, later calls run nothing. -/
def BConn.signalClose (b : BConn) : BConn :=
  if b.closeSignaled then b
  else { b with closeSignaled := true, closeSignalCloses := b.closeSignalCloses + 1 }

/-- Close of conn_browser.go: fires the one-shot close signal, then — on
every call, unguarded — invokes close() on the underlying WebSocket (which
moves an open socket to the CLOSING state) and releases the event handlers,
and returns nil unconditionally. -/
def BConn.Close (b : BConn) : Option GoError × BConn :=
  let b1 := b.signalClose
  (none,
   { b1 with
       underlyingCloseCalls := b1.underlyingCloseCalls + 1,
       releaseHandlersCalls := b1.releaseHandlersCalls + 1,
       readyState :=
         if b1.readyState = webSocketStateClosed then webSocketStateClosed
         else webSocketStateClosing })

/-- checkOpen of conn_browser.go: errConnectionClosed when the readyState is
CLOSING or CLOSED, nil otherwise. -/
def BConn.checkOpen (b : BConn) : Option GoError :=
  if b.readyState = webSocketStateClosed ∨ b.readyState = webSocketStateClosing
  then some GoError.errConnectionClosed else none

/-- bytes.Buffer.Read as conn_browser.go uses it on currData: an empty
buffer yields (0, io.EOF) except that a zero-length destination yields
(0, nil); otherwise min(bufLen, available) bytes are consumed with a nil
error. -/
def bufferRead (buf : List Nat) (bufLen : Nat) : (Nat × Option GoError) × List Nat :=
  if buf.isEmpty then
    ((0, if bufLen = 0 then none else some GoError.eof), buf)
  else
    let n := min bufLen buf.length
    ((n, none), buf.drop n)

/-- readAfterErr of conn_browser.go: drains currData; when nothing was
copied it returns the latched first error, or io.EOF when none was latched;
otherwise the copied count with the drain's (nil) error. -/
def BConn.readAfterErr (b : BConn) (bufLen : Nat) : (Nat × Option GoError) × BConn :=
  let step := bufferRead b.currData bufLen
  let b' := { b with currData := step.2 }
  if step.1.1 = 0 then
    match b.firstErr with
    | some e => ((0, some e), b')
    | none => ((0, some GoError.eof), b')
  else ((step.1.1, step.1.2), b')

/-- handleMessage: the message event handler of setUpHandlers appends the
decoded payload to currData (and performs a coalescing non-blocking notify
on the data signal, which the read loop models by re-draining). -/
def BConn.handleMessage (b : BConn) (d : List Nat) : BConn :=
  { b with currData := b.currData ++ d }

/-- handleClose: the close event handler of setUpHandlers fires the one-shot
close signal, latches errorEventToError of the event as the first error
(unconditionally overwriting), and releases the handlers; the runtime has
moved the readyState to CLOSED by the time the close event fires. -/
def BConn.handleClose (b : BConn) (ev : JSEvent) : BConn :=
  let b1 := b.signalClose
  { b1 with firstErr := some (errorEventToError ev),
            releaseHandlersCalls := b1.releaseHandlersCalls + 1,
            readyState := webSocketStateClosed }

/-- Result of a browser Read: a returned (count, error, next state), or the
call suspending with no signal left to wake it. -/
inductive BReadResult where
  | ret (n : Nat) (err : Option GoError) (b' : BConn)
  | blocks
deriving Repr, DecidableEq

/-- The for-loop of Read in conn_browser.go, with the pending event queue
threaded explicitly: drain currData, returning any bytes obtained; when
empty, the select suspends until the data signal (a message event was
handled: append and retry) or the close signal (a close event was handled,
or the signal had already fired: readAfterErr) wakes it; with no pending
event and no fired close signal the call stays suspended. -/
def BConn.readOpenLoop (bufLen : Nat) (b : BConn) (pending : List BEvent) :
    BReadResult :=
    let step := bufferRead b.currData bufLen
    if 0 < step.1.1 then
      BReadResult.ret step.1.1 none { b with currData := step.2, pending := pending }
    else
      match pending with
      | [] =>
        if b.closeSignaled then
          let out := BConn.readAfterErr { b with pending := [] } bufLen
          BReadResult.ret out.1.1 out.1.2 out.2
        else BReadResult.blocks
      | BEvent.message d :: rest =>
          BConn.readOpenLoop bufLen (BConn.handleMessage b d) rest
      | BEvent.closeEvt ev :: rest =>
          let b1 := BConn.handleClose b ev
          let out := BConn.readAfterErr { b1 with pending := rest } bufLen
          BReadResult.ret out.1.1 out.1.2 out.2

/-- Read of conn_browser.go: when checkOpen fails the call goes straight to
readAfterErr; otherwise the drain/suspend loop runs against the pending
events. -/
def BConn.Read (b : BConn) (bufLen : Nat) : BReadResult :=
  match b.checkOpen with
  | some _ =>
    let out := b.readAfterErr bufLen
    BReadResult.ret out.1.1 out.1.2 out.2
  | none => BConn.readOpenLoop bufLen { b with pending := [] } b.pending

/-- SetDeadline of conn_browser.go: returns nil and touches nothing. -/
def BConn.SetDeadline (b : BConn) (_t : Int) : Option GoError × BConn := (none, b)

/-- SetReadDeadline of conn_browser.go: returns nil and touches nothing. -/
def BConn.SetReadDeadline (b : BConn) (_t : Int) : Option GoError × BConn := (none, b)

/-- SetWriteDeadline of conn_browser.go: returns nil and touches nothing. -/
def BConn.SetWriteDeadline (b : BConn) (_t : Int) : Option GoError × BConn := (none, b)

/-! ## Example states used by concrete theorems -/

/-- A wrapped gorilla connection with a given inbound queue, nothing sent
and no primitive prescribed to fail. -/
def baseWS (inc : List WSMessage) : WSConn :=
  { incoming := inc, sent := [], writeControlCalls := 0, closeCalls := 0,
    writeErr := none, writeControlErr := none, closeErr := none,
    readDeadline := none, writeDeadline := none,
    readDeadlineErr := none, writeDeadlineErr := none }

/-- The count and error of a native Read, without the successor state. -/
def readOut (c : Conn) (bufLen : Nat) : Option (Nat × Option GoError) :=
  (Conn.Read c bufLen).map Prod.fst

/-- The connection state after a native Read (unchanged when the read would
block). -/
def afterRead (c : Conn) (bufLen : Nat) : Conn :=
  match Conn.Read c bufLen with
  | some (_, c') => c'
  | none => c

/-- The native connection of the specification scenario: inbound frames of
10, 0 and 5 bytes, then a graceful close (NextReader failing with a
*ws.CloseError of code 1000). -/
def frameScenarioConn : Conn :=
  NewConn (baseWS
    [WSMessage.data { data := List.range 10, earlyEOF := false },
     WSMessage.data { data := [], earlyEOF := false },
     WSMessage.data { data := [10, 11, 12, 13, 14], earlyEOF := false },
     WSMessage.fetchErr (GoError.closeError 1000 "")])

/-- A native connection with one pending 1-byte frame, read with a
zero-length buffer by the C7 counterexample. -/
def zeroBufConn : Conn :=
  NewConn (baseWS [WSMessage.data { data := [3], earlyEOF := false }])

/-- A native connection whose cached frame reader holds two final bytes and
reports io.EOF together with them. -/
def midFrameConn : Conn :=
  { NewConn (baseWS []) with reader := some { data := [5, 6], earlyEOF := true } }

/-- An open browser connection, buffer drained, about to receive a close
event whose closure code is 1000 (normal closure, empty reason). -/
def closeEventConn : BConn :=
  NewBrowserConn [BEvent.closeEvt
    { typ := some "close", typeFallback := "object", reason := some "", code := some 1000 }]

/-- A fresh open browser connection with no pending events. -/
def idleBrowserConn : BConn := NewBrowserConn []

/-- The error a browser Read would report, when it returns: some (some e)
for an error, some none for a successful read, none when the call stays
suspended. -/
def BReadResult.errOf : BReadResult → Option (Option GoError)
  | BReadResult.ret _ e _ => some e
  | BReadResult.blocks => none

/-- The byte count a browser Read would report, when it returns. -/
def BReadResult.countOf : BReadResult → Option Nat
  | BReadResult.ret n _ _ => some n
  | BReadResult.blocks => none

/-! ## Supporting lemmas -/

/-- A frame reader call that reports a nil error into a positive-length
buffer has delivered at least one byte. -/
theorem readerRead_none_pos (r : Reader) (bufLen n : Nat) (err : Option GoError)
    (r' : Reader) (hb : 0 < bufLen) (h : Reader.read r bufLen = ((n, err), r'))
    (he : err = none) : 0 < n := by
  subst he
  unfold Reader.read at h
  by_cases hd : r.data.isEmpty
  · simp [hd] at h
  · simp [hd] at h
    rcases h with ⟨⟨hn, herr⟩, hr⟩
    subst hn
    rcases Nat.eq_zero_or_pos r.data.length with hz | hp
    · exact absurd (List.isEmpty_iff.mpr (List.eq_nil_of_length_eq_zero hz)) hd
    · exact Nat.lt_min.mpr ⟨hb, hp⟩

/-- The native read loop never reports zero bytes with a nil error when the
buffer has positive length. -/
theorem readLoop_none_err_pos (bufLen : Nat) (hb : 0 < bufLen) :
    ∀ (inc : List WSMessage) (r : Reader) (n : Nat) (r' : Option Reader)
      (inc' : List WSMessage),
      readLoop bufLen r inc = some ((n, none), r', inc') → 0 < n := by
  intro inc
  induction inc with
  | nil =>
    intro r n r' inc' h
    rw [readLoop.eq_def] at h
    rcases hs : Reader.read r bufLen with ⟨⟨m, err⟩, rr⟩
    rw [hs] at h
    by_cases he : err = some GoError.eof
    · subst he
      simp only [if_pos rfl] at h
      by_cases hm : 0 < m
      · simp [hm] at h
        omega
      · simp [hm] at h
    · simp only [if_neg he] at h
      simp at h
      rcases h with ⟨⟨hn, herr⟩, _⟩
      subst hn
      exact readerRead_none_pos r bufLen m err rr hb hs herr
  | cons msg rest ih =>
    intro r n r' inc' h
    rw [readLoop.eq_def] at h
    rcases hs : Reader.read r bufLen with ⟨⟨m, err⟩, rr⟩
    rw [hs] at h
    by_cases he : err = some GoError.eof
    · subst he
      simp only [if_pos rfl] at h
      by_cases hm : 0 < m
      · simp [hm] at h
        omega
      · simp only [if_neg hm] at h
        match msg with
        | WSMessage.fetchErr e => simp at h
        | WSMessage.closeMsg => simp at h
        | WSMessage.data r2 => exact ih r2 n r' inc' h
    · simp only [if_neg he] at h
      simp at h
      rcases h with ⟨⟨hn, herr⟩, _⟩
      subst hn
      exact readerRead_none_pos r bufLen m err rr hb hs herr

/-- A native Read that returns a nil error into a positive-length buffer has
delivered at least one byte. -/
theorem connRead_none_err_pos (c : Conn) (bufLen n : Nat) (c' : Conn)
    (hb : 0 < bufLen) (h : Conn.Read c bufLen = some ((n, none), c')) : 0 < n := by
  unfold Conn.Read at h
  rcases hre : c.reader with _ | r
  · rw [hre] at h
    dsimp only at h
    unfold Conn.prepNextReader at h
    rcases hin : c.ws.incoming with _ | ⟨msg, rest⟩
    · rw [hin] at h
      simp at h
    · rw [hin] at h
      match msg with
      | WSMessage.fetchErr e => simp at h
      | WSMessage.closeMsg => simp at h
      | WSMessage.data r =>
        dsimp only at h
        rcases hl : readLoop bufLen r rest with _ | ⟨⟨⟨m, err⟩, r2, inc2⟩⟩
        · rw [hl] at h
          simp at h
        · rw [hl] at h
          simp at h
          rcases h with ⟨⟨hm, herr⟩, _⟩
          subst hm
          subst herr
          exact readLoop_none_err_pos bufLen hb rest r m r2 inc2 hl
  · rw [hre] at h
    dsimp only at h
    rcases hl : readLoop bufLen r c.ws.incoming with _ | ⟨⟨⟨m, err⟩, r2, inc2⟩⟩
    · rw [hl] at h
      simp at h
    · rw [hl] at h
      simp at h
      rcases h with ⟨⟨hm, herr⟩, _⟩
      subst hm
      subst herr
      exact readLoop_none_err_pos bufLen hb c.ws.incoming r m r2 inc2 hl

/-- readAfterErr never reports zero bytes with a nil error: when nothing is
copied it reports the latched error or io.EOF. -/
theorem readAfterErr_none_pos (b : BConn) (bufLen n : Nat) (err : Option GoError)
    (b' : BConn) (h : BConn.readAfterErr b bufLen = ((n, err), b'))
    (he : err = none) : 0 < n := by
  subst he
  unfold BConn.readAfterErr at h
  rcases hbr : bufferRead b.currData bufLen with ⟨⟨m, e2⟩, rest⟩
  rw [hbr] at h
  dsimp only at h
  by_cases hz : m = 0
  · rw [if_pos hz] at h
    rcases hfe : b.firstErr with _ | e
    · rw [hfe] at h
      simp at h
    · rw [hfe] at h
      simp at h
  · rw [if_neg hz] at h
    simp at h
    rcases h with ⟨⟨hm, _⟩, _⟩
    omega

/-- The browser read loop never returns zero bytes with a nil error,
whatever the buffer length. -/
theorem readOpenLoop_none_pos :
    ∀ (pending : List BEvent) (b : BConn) (bufLen n : Nat) (b' : BConn),
      BConn.readOpenLoop bufLen b pending = BReadResult.ret n none b' → 0 < n := by
  intro pending
  induction pending with
  | nil =>
    intro b bufLen n b' h
    rw [BConn.readOpenLoop.eq_def] at h
    by_cases hz : 0 < (bufferRead b.currData bufLen).1.1
    · rw [if_pos hz] at h
      simp at h
      omega
    · rw [if_neg hz] at h
      dsimp only at h
      by_cases hc : b.closeSignaled
      · rw [if_pos hc] at h
        simp at h
        rcases h with ⟨hn, herr, _⟩
        exact hn ▸ readAfterErr_none_pos _ bufLen _ _ _ rfl herr
      · rw [if_neg hc] at h
        simp at h
  | cons ev rest ih =>
    intro b bufLen n b' h
    rw [BConn.readOpenLoop.eq_def] at h
    by_cases hz : 0 < (bufferRead b.currData bufLen).1.1
    · rw [if_pos hz] at h
      simp at h
      omega
    · rw [if_neg hz] at h
      match ev with
      | BEvent.message d => exact ih _ bufLen n b' h
      | BEvent.closeEvt e =>
        simp only at h
        simp at h
        rcases h with ⟨hn, herr, _⟩
        exact hn ▸ readAfterErr_none_pos _ bufLen _ _ _ rfl herr

/-- A browser Read that returns a nil error has delivered at least one
byte, whatever the buffer length. -/
theorem bconnRead_none_pos (b : BConn) (bufLen n : Nat) (b' : BConn)
    (h : BConn.Read b bufLen = BReadResult.ret n none b') : 0 < n := by
  unfold BConn.Read at h
  rcases hco : b.checkOpen with _ | e
  · rw [hco] at h
    exact readOpenLoop_none_pos b.pending _ bufLen n b' h
  · rw [hco] at h
    simp at h
    rcases h with ⟨hn, herr, _⟩
    exact hn ▸ readAfterErr_none_pos _ bufLen _ _ _ rfl herr

/-! ## Claim theorems -/

/-- C1 (counterexample): on the cooperative backend, after the peer performs
a graceful shutdown — the close event fires with the normal closure code
1000 — and the (already empty) inbound buffer is drained, the next Read does
not return io.EOF: it returns the latched JavaScript-error value built from
the close event, which is an error condition distinct from io.EOF. -/
theorem graceful_close_not_eof_counterexample :
    (BConn.Read closeEventConn 8).errOf =
      some (some (GoError.jsError "close" "unexpected code: 1000")) ∧
    (BConn.Read closeEventConn 8).countOf = some 0 ∧
    GoError.jsError "close" "unexpected code: 1000" ≠ GoError.eof := by decide

/-- C1 (amended): on the cooperative backend, once the close event has been
handled and the inbound buffer is drained, every subsequent Read returns the
latched error errorEventToError(event) — always a non-nil error, never
io.EOF, whatever the closure code; io.EOF is returned after drain only when
no error was latched (a locally initiated close with no close event). -/
theorem close_event_latches_error :
    (∀ (b : BConn) (ev : JSEvent) (bufLen : Nat), b.currData = [] →
        BConn.Read (BConn.handleClose b ev) bufLen =
          BReadResult.ret 0 (some (errorEventToError ev)) (BConn.handleClose b ev) ∧
        errorEventToError ev ≠ GoError.eof) ∧
    (∀ (b : BConn) (bufLen : Nat),
        b.readyState = webSocketStateClosed → b.currData = [] → b.firstErr = none →
        BConn.Read b bufLen = BReadResult.ret 0 (some GoError.eof) b) := by
  constructor
  · intro b ev bufLen hdrained
    constructor
    · unfold BConn.Read BConn.checkOpen BConn.handleClose BConn.signalClose
      by_cases hs : b.closeSignaled <;>
        simp [hs, webSocketStateClosed, webSocketStateClosing] <;>
        unfold BConn.readAfterErr <;>
        simp [bufferRead, hdrained]
    · simp [errorEventToError]
  · intro b bufLen hstate hdrained hfe
    unfold BConn.Read BConn.checkOpen
    simp [hstate, webSocketStateClosed, webSocketStateClosing]
    unfold BConn.readAfterErr
    simp [bufferRead, hdrained, hfe]
    rw [← hdrained, ← hfe]

/-- C2: on the native backend, with inbound frames of 10, 0 and 5 bytes
followed by a graceful close, successive Reads with an 8-byte buffer return
8, 2 and 5 bytes — the zero-length frame is merged transparently, never
surfaced as a zero-length successful read — followed by io.EOF, for a total
of 8 + 2 + 5 = 15 bytes. -/
theorem frame_scenario_read_sequence :
    readOut frameScenarioConn 8 = some (8, none) ∧
    readOut (afterRead frameScenarioConn 8) 8 = some (2, none) ∧
    readOut (afterRead (afterRead frameScenarioConn 8) 8) 8 = some (5, none) ∧
    readOut (afterRead (afterRead (afterRead frameScenarioConn 8) 8) 8) 8 =
      some (0, some GoError.eof) ∧
    8 + 2 + 5 = 15 := by decide

/-- C3: on the native backend, when the current frame reader yields n > 0
bytes together with io.EOF, Read returns (n, nil) immediately, clears the
frame cursor, and fetches nothing further in that call (the incoming queue
is untouched). -/
theorem read_returns_partial_frame_immediately (c : Conn) (r : Reader)
    (bufLen n : Nat) (r' : Reader)
    (hr : c.reader = some r)
    (hread : Reader.read r bufLen = ((n, some GoError.eof), r'))
    (hn : 0 < n) :
    Conn.Read c bufLen = some ((n, none), { c with reader := none }) := by
  unfold Conn.Read
  rw [hr]
  dsimp only
  rw [readLoop.eq_def, hread]
  simp [hn]

/-- C3 (witness): a connection whose cached reader holds the final two bytes
of its frame and reports io.EOF with them: Read returns (2, nil) and clears
the cursor. -/
theorem read_returns_partial_frame_immediately_witness :
    Conn.Read midFrameConn 4 = some ((2, none), { midFrameConn with reader := none }) :=
  read_returns_partial_frame_immediately midFrameConn
    { data := [5, 6], earlyEOF := true } 4 2 { data := [], earlyEOF := true }
    rfl (by decide) (by decide)

/-- C4: when fetching the next inbound frame, a fetch error carrying close
code 1000 or 1005 is translated to io.EOF, a fetched close control frame is
translated to io.EOF, and every other fetch error — a close error with any
other code, or any non-close error — is returned to the caller verbatim. -/
theorem prep_close_code_translation (c : Conn) :
    (∀ text rest,
        c.ws.incoming = WSMessage.fetchErr (GoError.closeError 1000 text) :: rest →
        c.prepNextReader = some (some GoError.eof, c)) ∧
    (∀ text rest,
        c.ws.incoming = WSMessage.fetchErr (GoError.closeError 1005 text) :: rest →
        c.prepNextReader = some (some GoError.eof, c)) ∧
    (∀ rest, c.ws.incoming = WSMessage.closeMsg :: rest →
        c.prepNextReader = some (some GoError.eof, c)) ∧
    (∀ code text rest,
        c.ws.incoming = WSMessage.fetchErr (GoError.closeError code text) :: rest →
        code ≠ 1000 → code ≠ 1005 →
        c.prepNextReader = some (some (GoError.closeError code text), c)) ∧
    (∀ e rest, c.ws.incoming = WSMessage.fetchErr e :: rest →
        (∀ code text, e ≠ GoError.closeError code text) →
        c.prepNextReader = some (some e, c)) := by
  refine ⟨?_, ?_, ?_, ?_, ?_⟩
  · intro text rest hin
    unfold Conn.prepNextReader
    rw [hin]
    simp [translateFetchErr]
  · intro text rest hin
    unfold Conn.prepNextReader
    rw [hin]
    simp [translateFetchErr]
  · intro rest hin
    unfold Conn.prepNextReader
    rw [hin]
  · intro code text rest hin h1 h2
    unfold Conn.prepNextReader
    rw [hin]
    simp [translateFetchErr, h1, h2]
  · intro e rest hin hne
    unfold Conn.prepNextReader
    rw [hin]
    match e with
    | GoError.eof => simp [translateFetchErr]
    | GoError.closeError code text => exact absurd rfl (hne code text)
    | GoError.errConnectionClosed => simp [translateFetchErr]
    | GoError.jsError t r2 => simp [translateFetchErr]
    | GoError.netError m => simp [translateFetchErr]
    | GoError.multi e1 e2 => simp [translateFetchErr]

/-- C5: for every input buffer, the native Write either sends the whole
buffer as exactly one frame and returns (len b, nil), or returns (0, err)
with a non-nil error and sends nothing; a short write never occurs. -/
theorem write_whole_buffer_or_error (c : Conn) (b : List Nat) :
    ((Conn.Write c b).1 = (b.length, none) ∧
     (Conn.Write c b).2.ws.sent = c.ws.sent ++ [(c.defaultMessageType, b)]) ∨
    (∃ e, (Conn.Write c b).1 = (0, some e) ∧ (Conn.Write c b).2 = c) := by
  unfold Conn.Write
  rcases hw : c.ws.writeErr with _ | e
  · left
    simp
  · right
    exact ⟨e, rfl, rfl⟩

/-- C6 (counterexample): on the cooperative backend a second Close call
does trigger additional shutdown signaling: it invokes the underlying
close() a second time and re-runs the handler release, contradicting the
claim that subsequent Close calls perform no duplicate teardown. -/
theorem duplicate_teardown_counterexample :
    (BConn.Close idleBrowserConn).2.underlyingCloseCalls = 1 ∧
    (BConn.Close (BConn.Close idleBrowserConn).2).1 = none ∧
    (BConn.Close (BConn.Close idleBrowserConn).2).2.underlyingCloseCalls = 2 ∧
    (BConn.Close (BConn.Close idleBrowserConn).2).2.releaseHandlersCalls = 2 := by
  decide

/-- C6 (amended): on the native backend Close is single-shot — the first
call sends one close control frame, closes the underlying transport once,
returns the combination of the two errors, and every later call returns nil
and changes nothing. On the cooperative backend every Close returns nil and
the one-shot close signal fires at most once, but each call re-invokes the
underlying close and the handler release. -/
theorem close_once_semantics (c : Conn) (b : BConn) :
    (c.closed = true → Conn.Close c = (none, c)) ∧
    (c.closed = false →
        (Conn.Close c).1 = multierrCombine c.ws.writeControlErr c.ws.closeErr ∧
        (Conn.Close c).2.ws.writeControlCalls = c.ws.writeControlCalls + 1 ∧
        (Conn.Close c).2.ws.closeCalls = c.ws.closeCalls + 1 ∧
        (Conn.Close c).2.closed = true ∧
        Conn.Close (Conn.Close c).2 = (none, (Conn.Close c).2)) ∧
    ((BConn.Close b).1 = none ∧
     (BConn.Close b).2.closeSignaled = true ∧
     (BConn.Close b).2.underlyingCloseCalls = b.underlyingCloseCalls + 1 ∧
     (BConn.Close b).2.releaseHandlersCalls = b.releaseHandlersCalls + 1 ∧
     (b.closeSignaled = true → (BConn.Close b).2.closeSignalCloses = b.closeSignalCloses) ∧
     (b.closeSignaled = false →
        (BConn.Close b).2.closeSignalCloses = b.closeSignalCloses + 1)) := by
  refine ⟨?_, ?_, ?_⟩
  · intro hc
    unfold Conn.Close
    rw [hc]
    simp
  · intro hc
    unfold Conn.Close
    rw [hc]
    simp
  · refine ⟨rfl, ?_, ?_, ?_, ?_, ?_⟩ <;>
      unfold BConn.Close BConn.signalClose <;>
      by_cases hs : b.closeSignaled <;>
      simp [hs]

/-- C7 (counterexample): the native Read with a zero-length buffer, while a
1-byte frame is pending, returns zero bytes together with a nil error,
contradicting the claim for zero-length buffers. -/
theorem zero_buffer_read_counterexample :
    readOut zeroBufConn 0 = some (0, none) := by decide

/-- C7 (amended): a Read that returns never reports zero bytes with a nil
error — on the native backend for every positive-length buffer, and on the
cooperative backend for every buffer including zero-length ones; only the
native backend with a zero-length buffer can report (0, nil). -/
theorem read_never_zero_with_nil_error :
    (∀ (c : Conn) (bufLen n : Nat) (c' : Conn),
        0 < bufLen → Conn.Read c bufLen = some ((n, none), c') → 0 < n) ∧
    (∀ (b : BConn) (bufLen n : Nat) (b' : BConn),
        BConn.Read b bufLen = BReadResult.ret n none b' → 0 < n) :=
  ⟨fun c bufLen n c' hb h => connRead_none_err_pos c bufLen n c' hb h,
   fun b bufLen n b' h => bconnRead_none_pos b bufLen n b' h⟩

/-- C8: the native SetDeadline applies the read deadline first and then the
write deadline with the same instant; a read-deadline failure is returned at
once with the write deadline untouched; a write-deadline failure after a
successful read-deadline application leaves the read deadline in place. -/
theorem setDeadline_read_then_write (c : Conn) (t : Int) :
    (∀ e, c.ws.readDeadlineErr = some e → Conn.SetDeadline c t = (some e, c)) ∧
    (∀ e, c.ws.readDeadlineErr = none → c.ws.writeDeadlineErr = some e →
        Conn.SetDeadline c t =
          (some e, { c with ws := { c.ws with readDeadline := some t } })) ∧
    (c.ws.readDeadlineErr = none → c.ws.writeDeadlineErr = none →
        Conn.SetDeadline c t =
          (none, { c with ws := { c.ws with readDeadline := some t,
                                            writeDeadline := some t } })) := by
  refine ⟨?_, ?_, ?_⟩
  · intro e hre
    unfold Conn.SetDeadline Conn.SetReadDeadline
    rw [hre]
  · intro e hre hwe
    unfold Conn.SetDeadline Conn.SetReadDeadline Conn.SetWriteDeadline
    rw [hre]
    dsimp only
    rw [hwe]
  · intro hre hwe
    unfold Conn.SetDeadline Conn.SetReadDeadline Conn.SetWriteDeadline
    rw [hre]
    dsimp only
    rw [hwe]

/-- C9: the cooperative deadline setters return nil for every time argument
and leave the connection state — and hence every subsequent operation —
untouched. -/
theorem browser_deadlines_noop (b : BConn) (t : Int) :
    BConn.SetDeadline b t = (none, b) ∧
    BConn.SetReadDeadline b t = (none, b) ∧
    BConn.SetWriteDeadline b t = (none, b) :=
  ⟨rfl, rfl, rfl⟩

/-- C10: the cooperative Close returns nil on every call, the first
included: no failure of the underlying close or handler teardown is ever
surfaced to the caller. -/
theorem browser_close_returns_nil (b : BConn) : (BConn.Close b).1 = none := rfl
